import Mathlib

/-!
Verification of the `dive-computer-deco` decompression engine.

The Rust sources are shallowly embedded here.  `f32` arithmetic is idealised
as exact arithmetic in a linear ordered field `K` (instantiated at `ℚ`, whose
values include every `f32`, for the purely algebraic ceiling solvers, and at
`ℝ` for the kinetics, which uses `exp`).  Rust's `x as u32` cast on the
guarded non-negative values is `Nat.floor`.
-/

namespace DiveDeco

/-- Modelled from the spec: the module `zh16c.rs` (struct `ZhL16cGf`) is
declared in `lib.rs` but its file is not in the sources.  Per spec §4.1 the
constants "must match the published ZH-L16C parameter set exactly"; the values
below are that published set, and they reproduce the numbers pinned by the
repository's own tests (`tests/m_value.rs` expects
`5.0 / N2_B[15] + N2_A[15] = 5.4124365`, and `src/ceiling.rs` expects ceiling
6 at gf 1 and 15 at gf 0.3 for tissue `{3.11, 0}` at index 1). -/
def N2_HALF_LIFE : Fin 16 → ℚ :=
  ![4.0, 8.0, 12.5, 18.5, 27.0, 38.3, 54.3, 77.0,
    109.0, 146.0, 187.0, 239.0, 305.0, 390.0, 498.0, 635.0]

/-- Modelled from the spec: ZH-L16C helium half-lives (see `N2_HALF_LIFE`). -/
def HE_HALF_LIFE : Fin 16 → ℚ :=
  ![1.51, 3.02, 4.72, 6.99, 10.21, 14.48, 20.53, 29.11,
    41.20, 55.19, 70.69, 90.34, 115.29, 147.42, 188.24, 240.03]

/-- Modelled from the spec: ZH-L16C nitrogen `a` coefficients. -/
def N2_A : Fin 16 → ℚ :=
  ![1.2599, 1.0000, 0.8618, 0.7562, 0.6200, 0.5043, 0.4410, 0.4000,
    0.3750, 0.3500, 0.3295, 0.3065, 0.2835, 0.2610, 0.2480, 0.2327]

/-- Modelled from the spec: ZH-L16C nitrogen `b` coefficients. -/
def N2_B : Fin 16 → ℚ :=
  ![0.5050, 0.6514, 0.7222, 0.7825, 0.8126, 0.8434, 0.8693, 0.8910,
    0.9092, 0.9222, 0.9319, 0.9403, 0.9477, 0.9544, 0.9602, 0.9653]

/-- Modelled from the spec: ZH-L16C helium `a` coefficients. -/
def HE_A : Fin 16 → ℚ :=
  ![1.7424, 1.3830, 1.1919, 1.0458, 0.9220, 0.8205, 0.7305, 0.6502,
    0.5950, 0.5545, 0.5333, 0.5189, 0.5181, 0.5176, 0.5172, 0.5119]

/-- Modelled from the spec: ZH-L16C helium `b` coefficients. -/
def HE_B : Fin 16 → ℚ :=
  ![0.4245, 0.5747, 0.6527, 0.7223, 0.7582, 0.7957, 0.8279, 0.8553,
    0.8757, 0.8903, 0.8997, 0.9073, 0.9122, 0.9171, 0.9217, 0.9267]

/-- The tissue state of `src/tissue.rs`: per-compartment inert gas loads. -/
structure Tissue (K : Type) where
  load_n2 : K
  load_he : K
  deriving DecidableEq, Repr

/-- The dive parameter struct of `src/lib.rs`. -/
structure DiveParameters (K : Type) where
  descent_speed : K
  ascent_speed : K
  safety_stop_ascent_speed : K
  safety_stop_duration : K
  safety_stop_depth : K
  gf_low : K
  gf_high : K
  sac_rate : K
  deriving DecidableEq, Repr

variable {K : Type} [LinearOrderedField K] [FloorRing K]

/-- `DiveParameters::default()` from `src/lib.rs`. -/
def DiveParameters.default : DiveParameters K :=
  { descent_speed := 0.33, ascent_speed := 0.17,
    safety_stop_ascent_speed := 0.083, safety_stop_duration := 3,
    safety_stop_depth := 5, gf_low := 1, gf_high := 1, sac_rate := 20 }

/-- `FN2` from `src/lib.rs`. -/
def FN2 : K := 0.79

/-- `FHE` from `src/lib.rs`. -/
def FHE : K := 0

/-- `water_vapor_pressure` from `src/lib.rs`: the body ignores the
temperature argument and returns the constant `0.0627`. -/
def water_vapor_pressure (_temperature : K) : K := 0.0627

/-- The pressure-weighted Bühlmann `a` coefficient computed identically in
`ceiling_with_gf` and `is_oversaturated_at_depth` (`src/ceiling.rs`). -/
def aWeighted (tissue : Tissue K) (tissue_index : Fin 16) : K :=
  ((N2_A tissue_index : ℚ) * tissue.load_n2 + (HE_A tissue_index : ℚ) * tissue.load_he) /
    (tissue.load_n2 + tissue.load_he)

/-- The pressure-weighted Bühlmann `b` coefficient (`src/ceiling.rs`). -/
def bWeighted (tissue : Tissue K) (tissue_index : Fin 16) : K :=
  ((N2_B tissue_index : ℚ) * tissue.load_n2 + (HE_B tissue_index : ℚ) * tissue.load_he) /
    (tissue.load_n2 + tissue.load_he)

/-- `denominator = (1.0 - b) * gradient_factor + b` from `src/ceiling.rs`. -/
def ceilingDenominator (gradient_factor : K) (tissue : Tissue K) (tissue_index : Fin 16) : K :=
  (1 - bWeighted tissue tissue_index) * gradient_factor + bWeighted tissue tissue_index

/-- `result_bar = (b * p_total - gradient_factor * a * b) / denominator`
from `src/ceiling.rs`; also the `required_pressure_bar` of
`is_oversaturated_at_depth`, which uses the exact same expression. -/
def resultBar (gradient_factor : K) (tissue : Tissue K) (tissue_index : Fin 16) : K :=
  (bWeighted tissue tissue_index * (tissue.load_n2 + tissue.load_he) -
      gradient_factor * aWeighted tissue tissue_index * bWeighted tissue tissue_index) /
    ceilingDenominator gradient_factor tissue tissue_index

/-- `result_meters = (result_bar - 1.0) * 10.0` from `src/ceiling.rs`. -/
def resultMeters (gradient_factor : K) (tissue : Tissue K) (tissue_index : Fin 16) : K :=
  (resultBar gradient_factor tissue tissue_index - 1) * 10

/-- The rounding expression `((x + 2.999) / 3.0) as u32 * 3` shared by
`ceiling_with_gf`, `binary_ceiling_with_gf` and `calculate_deco_stop_depth`. -/
def roundCeil (x : K) : ℕ :=
  ⌊(x + 2.999) / 3⌋₊ * 3

/-- `ceiling_with_gf` from `src/ceiling.rs`: the analytical ceiling solver. -/
def ceiling_with_gf (gradient_factor : K) (tissue : Tissue K) (tissue_index : Fin 16)
    (round : Bool) : ℕ :=
  if tissue.load_n2 + tissue.load_he ≤ 0 then 0
  else if |ceilingDenominator gradient_factor tissue tissue_index| < 1e-10 then 0
  else if resultMeters gradient_factor tissue tissue_index < 0 then 0
  else if round then roundCeil (resultMeters gradient_factor tissue tissue_index)
  else ⌊resultMeters gradient_factor tissue tissue_index⌋₊

/-- `ceiling` from `src/ceiling.rs` (analytical solver at `gf_low`). -/
def ceiling (dive_parameters : DiveParameters K) (tissue : Tissue K) (tissue_index : Fin 16)
    (round : Bool) : ℕ :=
  ceiling_with_gf dive_parameters.gf_low tissue tissue_index round

/-- `is_oversaturated_at_depth` from `src/ceiling.rs`. -/
def is_oversaturated_at_depth (gradient_factor : K) (tissue : Tissue K) (tissue_index : Fin 16)
    (depth_meters : K) : Bool :=
  if tissue.load_n2 + tissue.load_he ≤ 0 then false
  else if |ceilingDenominator gradient_factor tissue tissue_index| < 1e-10 then false
  else if depth_meters / 10 + 1 < resultBar gradient_factor tissue tissue_index then true
  else false

/-- The upper-bound doubling loop of `binary_ceiling_with_gf`
(`while is_oversaturated_at_depth(..) && iterations < MAX_ITERATIONS`),
with the remaining iteration budget as fuel (`MAX_ITERATIONS = 50`). -/
def doublingLoop (gradient_factor : K) (tissue : Tissue K) (tissue_index : Fin 16) :
    ℕ → K → K
  | 0, high_depth => high_depth
  | fuel + 1, high_depth =>
    if is_oversaturated_at_depth gradient_factor tissue tissue_index high_depth then
      doublingLoop gradient_factor tissue tissue_index fuel (high_depth * 2)
    else high_depth

/-- The bisection loop of `binary_ceiling_with_gf`
(`while (high_depth - low_depth) > PRECISION && iterations < MAX_ITERATIONS`,
`PRECISION = 0.1`), returning the final `high_depth`. -/
def bisectLoop (gradient_factor : K) (tissue : Tissue K) (tissue_index : Fin 16) :
    ℕ → K → K → K
  | 0, _low_depth, high_depth => high_depth
  | fuel + 1, low_depth, high_depth =>
    if high_depth - low_depth > 0.1 then
      bisectLoop gradient_factor tissue tissue_index fuel
        (if is_oversaturated_at_depth gradient_factor tissue tissue_index
            ((low_depth + high_depth) / 2) then (low_depth + high_depth) / 2 else low_depth)
        (if is_oversaturated_at_depth gradient_factor tissue tissue_index
            ((low_depth + high_depth) / 2) then high_depth else (low_depth + high_depth) / 2)
    else high_depth

/-- `binary_ceiling_with_gf` from `src/ceiling.rs`: bisection ceiling solver. -/
def binary_ceiling_with_gf (gradient_factor : K) (tissue : Tissue K) (tissue_index : Fin 16)
    (round : Bool) : ℕ :=
  if tissue.load_n2 + tissue.load_he ≤ 0 then 0
  else if ¬ is_oversaturated_at_depth gradient_factor tissue tissue_index 0 then 0
  else
    let high_depth := doublingLoop gradient_factor tissue tissue_index 50 100
    let result_meters := bisectLoop gradient_factor tissue tissue_index 50 0 high_depth
    if result_meters < 0 then 0
    else if round then roundCeil result_meters
    else ⌊result_meters⌋₊

/-- `binary_ceiling` from `src/ceiling.rs` (bisection solver at `gf_low`). -/
def binary_ceiling (dive_parameters : DiveParameters K) (tissue : Tissue K)
    (tissue_index : Fin 16) (round : Bool) : ℕ :=
  binary_ceiling_with_gf dive_parameters.gf_low tissue tissue_index round

/-- `max_ceiling_with_gf` from `src/ceiling.rs`: fold over the 16 compartments
keeping the strictly greater rounded ceiling. -/
def max_ceiling_with_gf (gradient_factor : K) (tissues : Fin 16 → Tissue K) : ℕ × Fin 16 :=
  (List.finRange 16).foldl
    (fun acc i =>
      if acc.1 < ceiling_with_gf gradient_factor (tissues i) i true then
        (ceiling_with_gf gradient_factor (tissues i) i true, i)
      else acc)
    (0, 0)

/-- `max_ceiling` from `src/ceiling.rs` (at `gf_low`). -/
def max_ceiling (dive_parameters : DiveParameters K) (tissues : Fin 16 → Tissue K) :
    ℕ × Fin 16 :=
  (List.finRange 16).foldl
    (fun acc i =>
      if acc.1 < ceiling dive_parameters (tissues i) i true then
        (ceiling dive_parameters (tissues i) i true, i)
      else acc)
    (0, 0)

/-- `calculate_tissue` from `src/tissue.rs`.  The nitrogen load follows
`ppn2 + (p0n2 - ppn2) * e`, while the helium line of the source reads
`p0he + (pphe - p0he) * e` (the roles of the old load and the inspired
pressure are swapped relative to the nitrogen line).  The source asserts
`minutes_since_last_check >= 0`; the embedding is total. -/
noncomputable def calculate_tissue (tissue : Tissue ℝ) (tissue_index : Fin 16)
    (amb_pressure temperature minutes_since_last_check : ℝ) : Tissue ℝ :=
  let ppn2 := (amb_pressure - water_vapor_pressure temperature) * FN2
  let pphe := (amb_pressure - water_vapor_pressure temperature) * FHE
  let p0n2 := tissue.load_n2
  let p0he := tissue.load_he
  let k_n2 := Real.log 2 / (N2_HALF_LIFE tissue_index : ℝ)
  let k_he := Real.log 2 / (HE_HALF_LIFE tissue_index : ℝ)
  let e_to_exponent_n2 := Real.exp (-k_n2 * minutes_since_last_check)
  let e_to_exponent_he := Real.exp (-k_he * minutes_since_last_check)
  { load_n2 := ppn2 + (p0n2 - ppn2) * e_to_exponent_n2,
    load_he := p0he + (pphe - p0he) * e_to_exponent_he }

/-- Stated from the spec's words (§4.2, claim C1), for comparison with
`calculate_tissue`: the update `new_load = pp + (old_load - pp) *
exp(-(ln 2 / half_life) * Δt)` applied identically to both inert gases. -/
noncomputable def calculate_tissue_specFormula (tissue : Tissue ℝ) (tissue_index : Fin 16)
    (amb_pressure temperature minutes_since_last_check : ℝ) : Tissue ℝ :=
  let ppn2 := (amb_pressure - water_vapor_pressure temperature) * FN2
  let pphe := (amb_pressure - water_vapor_pressure temperature) * FHE
  let k_n2 := Real.log 2 / (N2_HALF_LIFE tissue_index : ℝ)
  let k_he := Real.log 2 / (HE_HALF_LIFE tissue_index : ℝ)
  { load_n2 := ppn2 + (tissue.load_n2 - ppn2) * Real.exp (-k_n2 * minutes_since_last_check),
    load_he := pphe + (tissue.load_he - pphe) * Real.exp (-k_he * minutes_since_last_check) }

/-- One pass of the inner `for i in 0..16` loop of `ndl` (`src/ndl.rs`):
each compartment is updated in place by one minute of kinetics and the
running maximum rounded ceiling is accumulated (the accumulator is declared
outside the outer loop and never reset).  The source calls
`ceiling(dive_parameters, tissues[i], i)` without the `round` flag (as
written it does not even compile); every other call site of the analytical
solver rounds, so `round = true` is used here. -/
noncomputable def ndlTissueStep (dive_parameters : DiveParameters ℝ)
    (amb_pressure temperature : ℝ) (state : (Fin 16 → Tissue ℝ) × ℕ) :
    (Fin 16 → Tissue ℝ) × ℕ :=
  (List.finRange 16).foldl
    (fun acc i =>
      let updated := Function.update acc.1 i
        (calculate_tissue (acc.1 i) i amb_pressure temperature 1)
      (updated, max acc.2 (ceiling dive_parameters (updated i) i true)))
    state

/-- The outer `loop` of `ndl` (`src/ndl.rs`), observed for `fuel` iterations.
The source loop has no iteration bound of its own: each pass runs the
16-compartment minute update, returns `bottom_time` once the accumulated
maximum ceiling is nonzero, and otherwise adds one minute and repeats.
`none` means the loop is still running after `fuel` iterations. -/
noncomputable def ndlFuel (dive_parameters : DiveParameters ℝ) (amb_pressure temperature : ℝ) :
    ℕ → (Fin 16 → Tissue ℝ) × ℕ → ℝ → Option ℝ
  | 0, _, _ => none
  | fuel + 1, state, bottom_time =>
    let s := ndlTissueStep dive_parameters amb_pressure temperature state
    if s.2 ≠ 0 then some bottom_time
    else ndlFuel dive_parameters amb_pressure temperature fuel s (bottom_time + 1)

/-- `ndl` from `src/ndl.rs`, starting from `bottom_time = 0.0` and
`max_ceiling = 0`, observed for `fuel` iterations of its unbounded loop. -/
noncomputable def ndl (dive_parameters : DiveParameters ℝ)
    (tissues : Fin 16 → Tissue ℝ) (amb_pressure temperature : ℝ) (fuel : ℕ) : Option ℝ :=
  ndlFuel dive_parameters amb_pressure temperature fuel (tissues, 0) 0

/-- The `current_gf` computation of the ascent phase of `simulate_with_ascent`
(`src/simulate.rs` lines 175-189): `gf_high` below the surface or with no
latched first stop, `gf_low` at or below the first stop, and otherwise
`gf_low + (gf_high - gf_low) * (1 - depth / first_stop)`. -/
def currentGF (params : DiveParameters K) (first_stop_depth : Option K) (depth : K) : K :=
  match first_stop_depth with
  | some first_stop =>
    if depth ≤ 0 then params.gf_high
    else if depth ≥ first_stop then params.gf_low
    else params.gf_low + (params.gf_high - params.gf_low) * (1 - depth / first_stop)
  | none => params.gf_high

/-- Stated from the spec's words (§4.3, claim C2), for comparison with
`currentGF`: `fraction = clamp((ambient_pressure - surface_pressure) /
(first_stop_pressure - surface_pressure), 0, 1)` and
`gf = gf_low + (gf_high - gf_low) * fraction`, with a surface pressure of
1 bar and pressures derived from depths by `d / 10 + 1`. -/
def currentGF_specClaim (params : DiveParameters K) (first_stop_depth : K) (depth : K) : K :=
  params.gf_low + (params.gf_high - params.gf_low) *
    min 1 (max 0 (((depth / 10 + 1) - 1) / ((first_stop_depth / 10 + 1) - 1)))

/-- The first-stop latch of the ascent phase (`src/simulate.rs` lines
170-172): if no first stop is set and the maximum ceiling at `gf_low` is
positive, latch it; otherwise keep the current value. -/
def latchFirstStop (params : DiveParameters K) (first_stop_depth : Option K)
    (tissues : Fin 16 → Tissue K) : Option K :=
  if first_stop_depth = none ∧ 0 < (max_ceiling_with_gf params.gf_low tissues).1 then
    some ((max_ceiling_with_gf params.gf_low tissues).1 : K)
  else first_stop_depth

/-- The mutable state touched by the `AT DECOMPRESSION STOP` branch of
`simulate_with_ascent` (`src/simulate.rs` lines 316-359).  Output recording
is the no-op `record_output` of the `no_std` build. -/
structure AscentState where
  tissues : Fin 16 → Tissue ℝ
  depth : ℝ
  amb_pressure : ℝ
  dive_time : ℝ
  current_deco_depth : ℝ
  deco_stop_time : ℝ
  accumulated_short_stop_time : ℝ
  at_deco_stop : Bool

/-- The `for i in 0..16` kinetics pass shared by every simulator phase. -/
noncomputable def updateTissues (amb_pressure temperature dt : ℝ)
    (tissues : Fin 16 → Tissue ℝ) : Fin 16 → Tissue ℝ :=
  fun i => calculate_tissue (tissues i) i amb_pressure temperature dt

/-- One iteration of the `AT DECOMPRESSION STOP` branch of
`simulate_with_ascent` (`src/simulate.rs` lines 316-359), with the
`internal_step` of 1 second: hold at the stop depth, run kinetics for
`1/60` minutes, advance the timers, then the stop-exit `if`/`else if`
(leave after ≥ 60 s once the ceiling clears by 0.5 m, or carry a short
stop's time forward), and finally the unconditional 20-minute safety
valve.  `current_gf` is the gradient factor computed earlier in the same
loop iteration (see `currentGF`). -/
noncomputable def decoStopStep (current_gf temperature : ℝ) (s : AscentState) : AscentState :=
  let depth := s.current_deco_depth
  let amb := depth / 10 + 1
  let tissues := updateTissues amb temperature (1 / 60) s.tissues
  let dive_time := s.dive_time + 1
  let deco_stop_time := s.deco_stop_time + 1
  let new_ceiling := (max_ceiling_with_gf current_gf tissues).1
  let s1 :=
    if deco_stop_time ≥ 60 ∧ (new_ceiling = 0 ∨ (new_ceiling : ℝ) + 0.5 < depth) then
      { s with
        tissues := tissues
        depth := depth
        amb_pressure := amb
        dive_time := dive_time
        deco_stop_time := 0
        at_deco_stop := false }
    else if deco_stop_time < 60 ∧ (new_ceiling = 0 ∨ (new_ceiling : ℝ) + 0.5 < depth) then
      { s with
        tissues := tissues
        depth := depth
        amb_pressure := amb
        dive_time := dive_time
        accumulated_short_stop_time := s.accumulated_short_stop_time + deco_stop_time
        deco_stop_time := 0
        at_deco_stop := false }
    else
      { s with
        tissues := tissues
        depth := depth
        amb_pressure := amb
        dive_time := dive_time
        deco_stop_time := deco_stop_time }
  if s1.deco_stop_time ≥ 20 * 60 then
    { s1 with
      at_deco_stop := false
      deco_stop_time := 0 }
  else s1

/-! Helper lemmas shared by several claims. -/

lemma floorNat_eq {x : K} (n : ℕ) (h1 : (n : K) ≤ x) (h2 : x < n + 1) : ⌊x⌋₊ = n := by
  rw [Nat.floor_eq_iff (le_trans (Nat.cast_nonneg n) h1)]
  exact ⟨h1, h2⟩

lemma eps_le_abs {x : K} (h : (0.1 : K) ≤ x) : (1/10000000000 : K) ≤ |x| := by
  rw [abs_of_pos (lt_of_lt_of_le (by norm_num) h)]
  nlinarith

lemma finRange16 :
    List.finRange 16 = [0,1,2,3,4,5,6,7,8,9,10,11,12,13,14,15] := by decide

lemma ceilZeroLoad (gf : K) (i : Fin 16) (r : Bool) :
    ceiling_with_gf gf ⟨0, 0⟩ i r = 0 := by
  simp [ceiling_with_gf]

lemma ceil311_gf1 : ceiling_with_gf (1 : ℚ) ⟨3.11, 0⟩ 1 true = 6 := by
  have h : ⌊(337177/150000 : ℚ)⌋₊ = 2 := floorNat_eq 2 (by norm_num) (by norm_num)
  norm_num [ceiling_with_gf, roundCeil, resultMeters, resultBar, ceilingDenominator,
    bWeighted, aWeighted, N2_A, N2_B, HE_A, HE_B, h]

lemma ceil311_gf03 : ceiling_with_gf (0.3 : ℚ) ⟨3.11, 0⟩ 1 true = 15 := by
  have h : ⌊(216862067/37799000 : ℚ)⌋₊ = 5 := floorNat_eq 5 (by norm_num) (by norm_num)
  have hd : (1/10000000000 : ℚ) ≤ |(37799/50000 : ℚ)| := eps_le_abs (by norm_num)
  norm_num [ceiling_with_gf, roundCeil, resultMeters, resultBar, ceilingDenominator,
    bWeighted, aWeighted, N2_A, N2_B, HE_A, HE_B, h, hd]

/-- Parameters with `gf_low = 0.3`, `gf_high = 0.85` (the speeds are those of
`DiveParameters::new`), used for the ascent-phase claims. -/
def c2Params : DiveParameters ℚ :=
  { descent_speed := 0.33, ascent_speed := 0.17, safety_stop_ascent_speed := 0.083,
    safety_stop_duration := 3, safety_stop_depth := 5,
    gf_low := 0.3, gf_high := 0.85, sac_rate := 20 }

/-- A tissue array whose only loaded compartment is index 1 with
`{load_n2: 3.11, load_he: 0}` (the tissue pinned by the repository's own
ceiling tests). -/
def c2Tissues : Fin 16 → Tissue ℚ := fun i => if i = 1 then ⟨3.11, 0⟩ else ⟨0, 0⟩

lemma maxceil_c2_gf03 : max_ceiling_with_gf (0.3 : ℚ) c2Tissues = (15, 1) := by
  rw [max_ceiling_with_gf, finRange16]
  simp [List.foldl, c2Tissues, ceilZeroLoad, ceil311_gf03]

lemma maxceil_c2_gf1 : max_ceiling_with_gf (1 : ℚ) c2Tissues = (6, 1) := by
  rw [max_ceiling_with_gf, finRange16]
  simp [List.foldl, c2Tissues, ceilZeroLoad, ceil311_gf1]

/-! Theorems for the claims, in claim order after the shared helpers. -/

/-- Claim C10: `water_vapor_pressure` ignores its temperature argument and
returns the constant `0.0627` for every input, so two `calculate_tissue`
calls that differ only in the temperature argument return the same tissue. -/
theorem C10_water_vapor_pressure_constant :
    (∀ temperature : ℝ, water_vapor_pressure temperature = 0.0627) ∧
    (∀ (t : Tissue ℝ) (i : Fin 16) (amb temp1 temp2 m : ℝ),
      calculate_tissue t i amb temp1 m = calculate_tissue t i amb temp2 m) :=
  ⟨fun _ => rfl, fun _ _ _ _ _ _ => rfl⟩

/-- Claim C1 (code bug): `calculate_tissue` does not apply the claimed closed
form identically to both gases.  The nitrogen line does follow
`pp + (old - pp) * exp(-k Δt)`, but the helium line of the source swaps the
old load and the inspired pressure: at Δt = 0 with tissue `{1, 1}` and
ambient 3 bar the code yields helium load `(3 - 0.0627) * FHE = 0` (the
inspired pressure) where the claimed form yields the old load `1`. -/
theorem C1_he_update_not_claimed_form :
    (∀ (t : Tissue ℝ) (i : Fin 16) (amb temp m : ℝ),
      (calculate_tissue t i amb temp m).load_n2 =
        (calculate_tissue_specFormula t i amb temp m).load_n2) ∧
    (calculate_tissue ⟨1, 1⟩ 0 3 20 0).load_he = 0 ∧
    (calculate_tissue_specFormula ⟨1, 1⟩ 0 3 20 0).load_he = 1 := by
  refine ⟨fun t i amb temp m => rfl, ?_, ?_⟩
  · simp [calculate_tissue, water_vapor_pressure, FHE, Real.exp_zero]
  · simp [calculate_tissue_specFormula, water_vapor_pressure, FHE, Real.exp_zero]

/-- Claim C5 (code bug): zero elapsed time is the identity on the nitrogen
load for every input, but not on the helium load: with tissue `{2, 1}` and
ambient 4 bar, `calculate_tissue` at Δt = 0 turns the helium load `1` into
the inspired pressure `(4 - 0.0627) * FHE = 0`. -/
theorem C5_zero_time_not_identity :
    (∀ (t : Tissue ℝ) (i : Fin 16) (amb temp : ℝ),
      (calculate_tissue t i amb temp 0).load_n2 = t.load_n2) ∧
    (calculate_tissue ⟨2, 1⟩ 0 4 20 0).load_he = 0 ∧
    (calculate_tissue ⟨2, 1⟩ 0 4 20 0).load_he ≠ (⟨2, 1⟩ : Tissue ℝ).load_he := by
  refine ⟨fun t i amb temp => ?_, ?_, ?_⟩
  · simp [calculate_tissue, Real.exp_zero]
  · simp [calculate_tissue, water_vapor_pressure, FHE, Real.exp_zero]
  · simp [calculate_tissue, water_vapor_pressure, FHE, Real.exp_zero]

/-- Claim C8: non-positive total inert-gas pressure, or a ceiling-formula
denominator of absolute value below `1e-10`, resolves to the safe default:
both ceiling solvers return 0 (rounded or not) and
`is_oversaturated_at_depth` returns false at every depth. -/
theorem C8_degenerate_inputs_default :
    ∀ (gf : ℚ) (t : Tissue ℚ) (i : Fin 16) (d : ℚ),
      t.load_n2 + t.load_he ≤ 0 ∨ |ceilingDenominator gf t i| < 1e-10 →
      ceiling_with_gf gf t i true = 0 ∧ ceiling_with_gf gf t i false = 0 ∧
      binary_ceiling_with_gf gf t i true = 0 ∧ binary_ceiling_with_gf gf t i false = 0 ∧
      is_oversaturated_at_depth gf t i d = false := by
  intro gf t i d h
  have hov : ∀ dd : ℚ, is_oversaturated_at_depth gf t i dd = false := by
    intro dd
    rcases h with h | h
    · simp [is_oversaturated_at_depth, h]
    · by_cases hp : t.load_n2 + t.load_he ≤ 0
      · simp [is_oversaturated_at_depth, hp]
      · simp [is_oversaturated_at_depth, hp, h]
  have hc : ∀ r : Bool, ceiling_with_gf gf t i r = 0 := by
    intro r
    rcases h with h | h
    · simp [ceiling_with_gf, h]
    · by_cases hp : t.load_n2 + t.load_he ≤ 0
      · simp [ceiling_with_gf, hp]
      · simp [ceiling_with_gf, hp, h]
  have hb : ∀ r : Bool, binary_ceiling_with_gf gf t i r = 0 := by
    intro r
    by_cases hp : t.load_n2 + t.load_he ≤ 0
    · simp [binary_ceiling_with_gf, hp]
    · simp [binary_ceiling_with_gf, hp, hov 0]
  exact ⟨hc true, hc false, hb true, hb false, hov d⟩

/-- Witness for claim C8 at the zero-load tissue. -/
theorem C8_degenerate_inputs_default_witness :
    ((⟨0, 0⟩ : Tissue ℚ).load_n2 + (⟨0, 0⟩ : Tissue ℚ).load_he ≤ 0 ∨
      |ceilingDenominator (1/2 : ℚ) ⟨0, 0⟩ 0| < 1e-10) ∧
    (ceiling_with_gf (1/2 : ℚ) ⟨0, 0⟩ 0 true = 0 ∧
      ceiling_with_gf (1/2 : ℚ) ⟨0, 0⟩ 0 false = 0 ∧
      binary_ceiling_with_gf (1/2 : ℚ) ⟨0, 0⟩ 0 true = 0 ∧
      binary_ceiling_with_gf (1/2 : ℚ) ⟨0, 0⟩ 0 false = 0 ∧
      is_oversaturated_at_depth (1/2 : ℚ) ⟨0, 0⟩ 0 5 = false) :=
  ⟨Or.inl (by norm_num),
    C8_degenerate_inputs_default (1/2) ⟨0, 0⟩ 0 5 (Or.inl (by norm_num))⟩

/-- Claim C2 counterexample: with `gf_low = 0.3`, `gf_high = 0.85` and the
tissue array `c2Tissues`, the ascent phase latches `first_stop_depth = 15`
(the maximum ceiling at `gf_low`), while the GF-free (gf = 1) maximum
ceiling is 6 — the latch is not GF-free; and at depth 10 m the code's
gradient factor differs from the spec's interpolation formula (the code
yields `29/60 ≈ 0.483`, the claimed formula `2/3 ≈ 0.667`). -/
theorem C2_counterexample_latch_and_interpolation :
    latchFirstStop c2Params none c2Tissues = some 15 ∧
    (max_ceiling_with_gf (1 : ℚ) c2Tissues).1 = 6 ∧
    currentGF c2Params (some 15) 10 ≠ currentGF_specClaim c2Params 15 10 := by
  refine ⟨?_, ?_, ?_⟩
  · rw [latchFirstStop,
      if_pos ⟨rfl, by rw [show c2Params.gf_low = (0.3 : ℚ) from rfl, maxceil_c2_gf03]; norm_num⟩]
    rw [show c2Params.gf_low = (0.3 : ℚ) from rfl, maxceil_c2_gf03]
    norm_num
  · rw [maxceil_c2_gf1]
  · rw [currentGF]
    norm_num [currentGF_specClaim, c2Params]

/-- Claim C2 as amended: the first stop is latched, the first time the
ceiling is positive during ascent, as the maximum rounded ceiling at
`gf_low` (not the GF-free ceiling), and is kept thereafter; and for a
latched first stop `fs > 0` the gradient factor is
`gf_low + (gf_high - gf_low) * clamp(1 - depth / fs, 0, 1)` — `gf_high` at
the surface, `gf_low` at or below the first stop (the fraction runs opposite
to the claim's formula). -/
theorem C2_amended_latch_and_interpolation :
    (∀ (p : DiveParameters ℚ) (t : Fin 16 → Tissue ℚ) (x : ℚ),
      latchFirstStop p (some x) t = some x ∧
      (0 < (max_ceiling_with_gf p.gf_low t).1 →
        latchFirstStop p none t = some ((max_ceiling_with_gf p.gf_low t).1 : ℚ))) ∧
    (∀ (p : DiveParameters ℚ) (fs d : ℚ), 0 < fs →
      currentGF p (some fs) d =
        p.gf_low + (p.gf_high - p.gf_low) * min 1 (max 0 (1 - d / fs))) := by
  constructor
  · intro p t x
    constructor
    · rw [latchFirstStop, if_neg]
      rintro ⟨hc, -⟩
      exact Option.some_ne_none x hc
    · intro h
      rw [latchFirstStop, if_pos ⟨rfl, h⟩]
  · intro p fs d hfs
    rw [currentGF]
    split_ifs with h1 h2
    · have hd : d / fs ≤ 0 := div_nonpos_iff.mpr (Or.inr ⟨h1, hfs.le⟩)
      rw [max_eq_right (by linarith), min_eq_left (by linarith)]
      ring
    · have hd : 1 ≤ d / fs := (one_le_div hfs).mpr h2
      rw [max_eq_left (by linarith), min_eq_right (by linarith)]
      ring
    · push_neg at h1 h2
      have hd1 : 0 < d / fs := div_pos h1 hfs
      have hd2 : d / fs < 1 := (div_lt_one hfs).mpr h2
      rw [max_eq_right (by linarith), min_eq_right (by linarith)]

/-- Claim C6 counterexample: at tissue `{load_n2: 3.9, load_he: 0}`,
compartment 0, gradient factor 1, the unrounded ceiling is 3 and the rounded
ceiling is 6 — the gap is exactly 3, not less than 3 (the unrounded result
is `3.332505` m, and `+2.999` rounding carries it past the next multiple
of 3 while the floor stays at 3). -/
theorem C6_counterexample_gap_three :
    ceiling_with_gf (1 : ℚ) ⟨3.9, 0⟩ 0 true = 6 ∧
    ceiling_with_gf (1 : ℚ) ⟨3.9, 0⟩ 0 false = 3 ∧
    ¬ (ceiling_with_gf (1 : ℚ) ⟨3.9, 0⟩ 0 true -
        ceiling_with_gf (1 : ℚ) ⟨3.9, 0⟩ 0 false < 3) := by
  have h1 : ceiling_with_gf (1 : ℚ) ⟨3.9, 0⟩ 0 true = 6 := by
    have h : ⌊(1266301/600000 : ℚ)⌋₊ = 2 := floorNat_eq 2 (by norm_num) (by norm_num)
    norm_num [ceiling_with_gf, roundCeil, resultMeters, resultBar, ceilingDenominator,
      bWeighted, aWeighted, N2_A, N2_B, HE_A, HE_B, h]
  have h2 : ceiling_with_gf (1 : ℚ) ⟨3.9, 0⟩ 0 false = 3 := by
    have h : ⌊(666501/200000 : ℚ)⌋₊ = 3 := floorNat_eq 3 (by norm_num) (by norm_num)
    norm_num [ceiling_with_gf, roundCeil, resultMeters, resultBar, ceilingDenominator,
      bWeighted, aWeighted, N2_A, N2_B, HE_A, HE_B, h]
  refine ⟨h1, h2, ?_⟩
  rw [h1, h2]
  norm_num

/-- Claim C6 as amended: for every gradient factor, tissue and compartment,
the rounded ceiling is a (non-negative) multiple of 3, is at least the
unrounded ceiling, and exceeds it by at most 3 (a gap of exactly 3 occurs,
see the counterexample). -/
theorem C6_amended_rounding_law :
    ∀ (gf : ℚ) (t : Tissue ℚ) (i : Fin 16),
      ceiling_with_gf gf t i true % 3 = 0 ∧
      ceiling_with_gf gf t i false ≤ ceiling_with_gf gf t i true ∧
      ceiling_with_gf gf t i true - ceiling_with_gf gf t i false ≤ 3 := by
  intro gf t i
  by_cases h1 : t.load_n2 + t.load_he ≤ 0
  · simp [ceiling_with_gf, h1]
  by_cases h2 : |ceilingDenominator gf t i| < 1e-10
  · simp [ceiling_with_gf, h1, h2]
  by_cases h3 : resultMeters gf t i < 0
  · simp [ceiling_with_gf, h1, h2, h3]
  push_neg at h3
  simp only [ceiling_with_gf, if_neg h1, if_neg h2, if_neg (not_lt.mpr h3),
    if_pos, Bool.false_eq_true, if_false, roundCeil]
  set r := resultMeters gf t i with hrdef
  have hm1 : ((⌊(r + 2.999) / 3⌋₊ : ℚ)) ≤ (r + 2.999) / 3 :=
    Nat.floor_le (by positivity)
  have hm2 : (r + 2.999) / 3 < ⌊(r + 2.999) / 3⌋₊ + 1 := Nat.lt_floor_add_one _
  have hn1 : ((⌊r⌋₊ : ℚ)) ≤ r := Nat.floor_le h3
  have hn2 : r < ⌊r⌋₊ + 1 := Nat.lt_floor_add_one r
  refine ⟨Nat.mul_mod_left _ _, ?_, ?_⟩
  · by_contra hcon
    push_neg at hcon
    have h4 : ⌊(r + 2.999) / 3⌋₊ * 3 + 1 ≤ ⌊r⌋₊ := hcon
    have hq : ((⌊(r + 2.999) / 3⌋₊ * 3 + 1 : ℕ) : ℚ) ≤ (⌊r⌋₊ : ℚ) := by exact_mod_cast h4
    push_cast at hq
    linarith
  · by_contra hcon
    push_neg at hcon
    have h4 : ⌊r⌋₊ + 4 ≤ ⌊(r + 2.999) / 3⌋₊ * 3 := by omega
    have hq : ((⌊r⌋₊ + 4 : ℕ) : ℚ) ≤ ((⌊(r + 2.999) / 3⌋₊ * 3 : ℕ) : ℚ) := by exact_mod_cast h4
    push_cast at hq
    linarith

lemma tableBoundsA (i : Fin 16) : (0 : K) ≤ (N2_A i : K) ∧ (0 : K) ≤ (HE_A i : K) := by
  fin_cases i <;> constructor <;> norm_num [N2_A, HE_A]

lemma tableBoundsB (i : Fin 16) :
    (0.4245 : K) ≤ (N2_B i : K) ∧ (N2_B i : K) ≤ 0.9653 ∧
    (0.4245 : K) ≤ (HE_B i : K) ∧ (HE_B i : K) ≤ 0.9653 := by
  fin_cases i <;> refine ⟨?_, ?_, ?_, ?_⟩ <;> norm_num [N2_B, HE_B]

lemma bWeighted_bounds {t : Tissue K} (i : Fin 16)
    (hn : 0 ≤ t.load_n2) (hh : 0 ≤ t.load_he) (hp : 0 < t.load_n2 + t.load_he) :
    (0.4245 : K) ≤ bWeighted t i ∧ bWeighted t i ≤ 0.9653 := by
  obtain ⟨hb1, hb2, hb3, hb4⟩ := tableBoundsB (K := K) i
  unfold bWeighted
  constructor
  · rw [le_div_iff₀ hp]
    nlinarith
  · rw [div_le_iff₀ hp]
    nlinarith

lemma aWeighted_nonneg {t : Tissue K} (i : Fin 16)
    (hn : 0 ≤ t.load_n2) (hh : 0 ≤ t.load_he) (hp : 0 < t.load_n2 + t.load_he) :
    0 ≤ aWeighted t i := by
  obtain ⟨ha1, ha2⟩ := tableBoundsA (K := K) i
  exact div_nonneg (by nlinarith) hp.le

lemma denominator_lb {t : Tissue K} (i : Fin 16) {g : K}
    (hn : 0 ≤ t.load_n2) (hh : 0 ≤ t.load_he) (hp : 0 < t.load_n2 + t.load_he)
    (hg : 0 < g) : (0.4245 : K) ≤ ceilingDenominator g t i := by
  obtain ⟨hblo, hbhi⟩ := bWeighted_bounds (K := K) i hn hh hp
  unfold ceilingDenominator
  nlinarith

lemma denominator_guard_passes {t : Tissue K} (i : Fin 16) {g : K}
    (hn : 0 ≤ t.load_n2) (hh : 0 ≤ t.load_he) (hp : 0 < t.load_n2 + t.load_he)
    (hg : 0 < g) : ¬ (|ceilingDenominator g t i| < 1e-10) := by
  have h1 := denominator_lb (K := K) i hn hh hp hg
  have h2 := eps_le_abs (le_trans (by norm_num) h1)
  intro hc
  rw [show (1e-10 : K) = 1/10000000000 by norm_num] at hc
  linarith

lemma resultBar_antitone {t : Tissue K} (i : Fin 16) {g1 g2 : K}
    (hn : 0 ≤ t.load_n2) (hh : 0 ≤ t.load_he) (hp : 0 < t.load_n2 + t.load_he)
    (hg1 : 0 < g1) (hg12 : g1 ≤ g2) :
    resultBar g2 t i ≤ resultBar g1 t i := by
  have hg2 : 0 < g2 := lt_of_lt_of_le hg1 hg12
  obtain ⟨hblo, hbhi⟩ := bWeighted_bounds (K := K) i hn hh hp
  have ha := aWeighted_nonneg (K := K) i hn hh hp
  have hD1 : (0:K) < ceilingDenominator g1 t i :=
    lt_of_lt_of_le (by norm_num) (denominator_lb (K := K) i hn hh hp hg1)
  have hD2 : (0:K) < ceilingDenominator g2 t i :=
    lt_of_lt_of_le (by norm_num) (denominator_lb (K := K) i hn hh hp hg2)
  unfold resultBar
  rw [div_le_div_iff hD2 hD1]
  have hid : (bWeighted t i * (t.load_n2 + t.load_he) - g1 * aWeighted t i * bWeighted t i) *
        ceilingDenominator g2 t i -
      (bWeighted t i * (t.load_n2 + t.load_he) - g2 * aWeighted t i * bWeighted t i) *
        ceilingDenominator g1 t i =
      (g2 - g1) * (bWeighted t i *
        ((1 - bWeighted t i) * (t.load_n2 + t.load_he) + aWeighted t i * bWeighted t i)) := by
    unfold ceilingDenominator
    ring
  have hnn : (0:K) ≤ (g2 - g1) * (bWeighted t i *
      ((1 - bWeighted t i) * (t.load_n2 + t.load_he) + aWeighted t i * bWeighted t i)) := by
    have hb0 : (0:K) ≤ bWeighted t i := le_trans (by norm_num) hblo
    have hb1 : (0:K) ≤ 1 - bWeighted t i := by linarith
    exact mul_nonneg (sub_nonneg.mpr hg12)
      (mul_nonneg hb0 (add_nonneg (mul_nonneg hb1 hp.le) (mul_nonneg ha hb0)))
  linarith [hid, hnn]

/-- Claim C7: the ceiling is antitone in the gradient factor: for positive
gradient factors `gf1 ≤ gf2` and any physically admissible tissue state
(non-negative inert gas loads, per the data-model invariant of spec §3),
the ceiling at `gf2` is at most the ceiling at `gf1`, rounded or not. -/
theorem C7_ceiling_antitone_in_gf :
    ∀ (gf1 gf2 : ℚ) (t : Tissue ℚ) (i : Fin 16) (round : Bool),
      0 < gf1 → gf1 ≤ gf2 → 0 ≤ t.load_n2 → 0 ≤ t.load_he →
      ceiling_with_gf gf2 t i round ≤ ceiling_with_gf gf1 t i round := by
  intro gf1 gf2 t i round hg1 hg12 hn hh
  by_cases hp : t.load_n2 + t.load_he ≤ 0
  · simp [ceiling_with_gf, hp]
  push_neg at hp
  have hg2 : 0 < gf2 := lt_of_lt_of_le hg1 hg12
  have hrb := resultBar_antitone (K := ℚ) i hn hh hp hg1 hg12
  have hrm : resultMeters gf2 t i ≤ resultMeters gf1 t i := by
    unfold resultMeters
    linarith
  by_cases hr2 : resultMeters gf2 t i < 0
  · simp [ceiling_with_gf, hr2, not_le.mpr hp,
      denominator_guard_passes (K := ℚ) i hn hh hp hg2]
  · have hr1 : ¬ resultMeters gf1 t i < 0 := by
      push_neg at hr2 ⊢
      linarith
    simp only [ceiling_with_gf, if_neg (not_le.mpr hp),
      if_neg (denominator_guard_passes (K := ℚ) i hn hh hp hg1),
      if_neg (denominator_guard_passes (K := ℚ) i hn hh hp hg2),
      if_neg hr1, if_neg hr2]
    cases round
    · simp only [Bool.false_eq_true, if_false]
      exact Nat.floor_le_floor hrm
    · simp only [if_true, roundCeil]
      exact Nat.mul_le_mul_right 3 (Nat.floor_le_floor (by linarith))

/-- Witness for claim C7 at gradient factors 0.3 ≤ 1 and the tissue pinned
by the repository's ceiling tests. -/
theorem C7_ceiling_antitone_in_gf_witness :
    ((0 : ℚ) < 0.3 ∧ (0.3 : ℚ) ≤ 1 ∧
      (0 : ℚ) ≤ (⟨3.11, 0⟩ : Tissue ℚ).load_n2 ∧
      (0 : ℚ) ≤ (⟨3.11, 0⟩ : Tissue ℚ).load_he) ∧
    ceiling_with_gf (1 : ℚ) ⟨3.11, 0⟩ 1 true ≤ ceiling_with_gf (0.3 : ℚ) ⟨3.11, 0⟩ 1 true ∧
    ceiling_with_gf (1 : ℚ) ⟨3.11, 0⟩ 1 true = 6 ∧
    ceiling_with_gf (0.3 : ℚ) ⟨3.11, 0⟩ 1 true = 15 :=
  ⟨⟨by norm_num, by norm_num, by norm_num, by norm_num⟩,
    C7_ceiling_antitone_in_gf 0.3 1 ⟨3.11, 0⟩ 1 true (by norm_num) (by norm_num)
      (by norm_num) (by norm_num),
    ceil311_gf1, ceil311_gf03⟩

/-- Witness for the amended claim C2 at the latched first stop 15 m and
depth 10 m. -/
theorem C2_amended_latch_and_interpolation_witness :
    (0 < (max_ceiling_with_gf (K := ℚ) c2Params.gf_low c2Tissues).1 ∧ (0 : ℚ) < 15) ∧
    latchFirstStop c2Params none c2Tissues =
      some ((max_ceiling_with_gf (K := ℚ) c2Params.gf_low c2Tissues).1 : ℚ) ∧
    currentGF c2Params (some 15) 10 =
      c2Params.gf_low + (c2Params.gf_high - c2Params.gf_low) * min 1 (max 0 (1 - 10 / 15)) :=
  ⟨⟨by rw [show c2Params.gf_low = (0.3 : ℚ) from rfl, maxceil_c2_gf03]; norm_num, by norm_num⟩,
    ((C2_amended_latch_and_interpolation).1 c2Params c2Tissues 0).2
      (by rw [show c2Params.gf_low = (0.3 : ℚ) from rfl, maxceil_c2_gf03]; norm_num),
    (C2_amended_latch_and_interpolation).2 c2Params 15 10 (by norm_num)⟩

/-- Claim C9: the 20-minute per-stop safety valve.  One iteration of the
deco-stop branch adds one second to the per-stop timer; whenever the timer
reaches `20 * 60` seconds the iteration ends with `at_deco_stop = false`
(back to free ascent) regardless of the current ceiling, so the time spent
continuously held at one stop never exceeds 20 minutes. -/
theorem C9_twenty_minute_stop_cap :
    ∀ (current_gf temperature : ℝ) (s : AscentState),
      20 * 60 ≤ s.deco_stop_time + 1 →
      (decoStopStep current_gf temperature s).at_deco_stop = false := by
  intro gf temp s h
  simp only [decoStopStep]
  split_ifs with h1 h2 h3 h4 <;> simp_all

/-- A state held at a 3 m stop for 1199 seconds, used as the witness input
for claim C9. -/
noncomputable def c9State : AscentState :=
  { tissues := fun _ => ⟨1, 1⟩, depth := 3, amb_pressure := 1.3, dive_time := 100,
    current_deco_depth := 3, deco_stop_time := 1199, accumulated_short_stop_time := 0,
    at_deco_stop := true }

/-- Witness for claim C9: after the 1200th second at the stop the simulator
leaves the stop state. -/
theorem C9_twenty_minute_stop_cap_witness :
    20 * 60 ≤ c9State.deco_stop_time + 1 ∧
    (decoStopStep 0.85 20 c9State).at_deco_stop = false :=
  ⟨by norm_num [c9State], C9_twenty_minute_stop_cap 0.85 20 c9State (by norm_num [c9State])⟩

/-- The surface-equilibrium tissue: loads `(1 - water_vapor_pressure) * gas
fraction` at 1 bar, the initialisation used throughout the repository's
tests and examples. -/
noncomputable def surfaceTissue : Tissue ℝ :=
  ⟨(1 - water_vapor_pressure 20) * FN2, (1 - water_vapor_pressure 20) * FHE⟩

lemma calc_fixed (i : Fin 16) (temp dt : ℝ) :
    calculate_tissue surfaceTissue i 1 temp dt = surfaceTissue := by
  simp only [calculate_tissue, surfaceTissue, water_vapor_pressure, FN2, FHE]
  simp [Tissue.mk.injEq]

lemma surf_nonneg : (0:ℝ) ≤ surfaceTissue.load_n2 := by
  norm_num [surfaceTissue, water_vapor_pressure, FN2]

lemma surf_he : surfaceTissue.load_he = 0 := by
  norm_num [surfaceTissue, water_vapor_pressure, FHE]

lemma surf_pos : 0 < surfaceTissue.load_n2 + surfaceTissue.load_he := by
  norm_num [surfaceTissue, water_vapor_pressure, FN2, FHE]

lemma surf_lt_one : surfaceTissue.load_n2 + surfaceTissue.load_he < 1 := by
  norm_num [surfaceTissue, water_vapor_pressure, FN2, FHE]

lemma ceiling_surface_zero (i : Fin 16) :
    ceiling_with_gf (1 : ℝ) surfaceTissue i true = 0 := by
  have hh : (0:ℝ) ≤ surfaceTissue.load_he := by rw [surf_he]
  obtain ⟨hblo, hbhi⟩ := bWeighted_bounds (K := ℝ) i surf_nonneg hh surf_pos
  have ha := aWeighted_nonneg (K := ℝ) i surf_nonneg hh surf_pos
  have hb0 : (0:ℝ) ≤ bWeighted surfaceTissue i := le_trans (by norm_num) hblo
  have hD : ceilingDenominator (1:ℝ) surfaceTissue i = 1 := by
    unfold ceilingDenominator
    ring
  have hrb : resultBar 1 surfaceTissue i < 1 := by
    unfold resultBar
    rw [hD, div_one]
    nlinarith [surf_pos, surf_lt_one, mul_nonneg ha hb0]
  have hrm : resultMeters 1 surfaceTissue i < 0 := by
    unfold resultMeters
    linarith
  simp [ceiling_with_gf, not_le.mpr surf_pos,
    denominator_guard_passes (K := ℝ) i surf_nonneg hh surf_pos one_pos, hrm]

lemma ndlTissueStep_fixed (temp : ℝ) :
    ndlTissueStep DiveParameters.default 1 temp ((fun _ => surfaceTissue), 0) =
      ((fun _ => surfaceTissue), 0) := by
  unfold ndlTissueStep
  have hstep : ∀ l : List (Fin 16),
      l.foldl
        (fun acc i =>
          let updated := Function.update acc.1 i
            (calculate_tissue (acc.1 i) i 1 temp 1)
          (updated, max acc.2 (ceiling DiveParameters.default (updated i) i true)))
        ((fun _ => surfaceTissue), 0) = ((fun _ => surfaceTissue), 0) := by
    intro l
    induction l with
    | nil => rfl
    | cons i l ih =>
      rw [List.foldl_cons]
      have h1 : Function.update (fun _ : Fin 16 => surfaceTissue) i
          (calculate_tissue ((fun _ : Fin 16 => surfaceTissue) i) i 1 temp 1) =
          (fun _ => surfaceTissue) := by
        rw [show calculate_tissue ((fun _ : Fin 16 => surfaceTissue) i) i 1 temp 1 =
            (fun _ : Fin 16 => surfaceTissue) i from calc_fixed i temp 1]
        exact Function.update_eq_self i _
      simp only [h1]
      have h2 : ceiling DiveParameters.default surfaceTissue i true = 0 := by
        rw [ceiling, show (DiveParameters.default : DiveParameters ℝ).gf_low = 1 from rfl]
        exact ceiling_surface_zero i
      simpa [h2] using ih
  exact hstep _

lemma ndl_surface_runs_forever (fuel : ℕ) : ∀ bt : ℝ,
    ndlFuel DiveParameters.default 1 20 fuel ((fun _ => surfaceTissue), 0) bt = none := by
  induction fuel with
  | zero => intro bt; rfl
  | succ n ih =>
    intro bt
    simp only [ndlFuel, ndlTissueStep_fixed 20]
    simpa using ih (bt + 1)

/-- Claim C3 counterexample: at surface pressure (1 bar) with the default
parameters (gf 1.0) and surface-equilibrium tissues, the `ndl` loop is still
running after 10,001 iterations — there is no 10,000-iteration cap and no
fatal error; the loop simply continues (every iteration fixes the tissue
state and the ceiling stays 0). -/
theorem C3_counterexample_no_cap :
    ndl DiveParameters.default (fun _ => surfaceTissue) 1 20 10001 = none := by
  unfold ndl
  exact ndl_surface_runs_forever 10001 0

/-- Claim C3 as amended: the search loop of `ndl` has no iteration cap and
need not terminate: at surface pressure with gf 1.0 and surface-equilibrium
tissues it runs forever (for every observation bound `fuel` it has neither
returned nor reported any error — its return type has no error case; the
10,000-iteration `InvalidSolution` cap of the spec lives in
`calculate_deco_stops` in `src/lib.rs`, not in `ndl`). -/
theorem C3_amended_ndl_unbounded :
    ∀ (fuel : ℕ) (bottom_time : ℝ),
      ndlFuel DiveParameters.default 1 20 fuel ((fun _ => surfaceTissue), 0) bottom_time =
        none :=
  fun fuel bottom_time => ndl_surface_runs_forever fuel bottom_time

lemma oversat_iff {t : Tissue K} (i : Fin 16) {g : K}
    (hn : 0 ≤ t.load_n2) (hh : 0 ≤ t.load_he) (hp : 0 < t.load_n2 + t.load_he)
    (hg : 0 < g) (d : K) :
    is_oversaturated_at_depth g t i d = true ↔ d < resultMeters g t i := by
  unfold is_oversaturated_at_depth
  rw [if_neg (not_le.mpr hp), if_neg (denominator_guard_passes (K := K) i hn hh hp hg)]
  by_cases hc : d / 10 + 1 < resultBar g t i
  · rw [if_pos hc]
    simp only [true_iff]
    unfold resultMeters
    linarith
  · rw [if_neg hc]
    simp only [Bool.false_eq_true, false_iff, not_lt]
    push_neg at hc
    unfold resultMeters
    linarith

lemma bisectLoop_bounds {t : Tissue K} (i : Fin 16) {g : K}
    (hn : 0 ≤ t.load_n2) (hh : 0 ≤ t.load_he) (hp : 0 < t.load_n2 + t.load_he)
    (hg : 0 < g) :
    ∀ (fuel : ℕ) (low high : K),
      low < resultMeters g t i → resultMeters g t i ≤ high →
      high - low ≤ 0.1 * 2 ^ fuel →
      resultMeters g t i ≤ bisectLoop g t i fuel low high ∧
      bisectLoop g t i fuel low high < resultMeters g t i + 0.1 := by
  intro fuel
  induction fuel with
  | zero =>
    intro low high hlo hhi hw
    norm_num at hw
    exact ⟨hhi, by rw [bisectLoop]; linarith⟩
  | succ n ih =>
    intro low high hlo hhi hw
    rw [bisectLoop]
    rw [pow_succ] at hw
    by_cases hcond : high - low > 0.1
    · rw [if_pos hcond]
      by_cases hov : is_oversaturated_at_depth g t i ((low + high) / 2) = true
      · rw [if_pos hov, if_pos hov]
        have hmid : (low + high) / 2 < resultMeters g t i :=
          (oversat_iff (K := K) i hn hh hp hg _).mp hov
        exact ih _ _ hmid hhi (by linarith)
      · rw [if_neg hov, if_neg hov]
        have hmid : resultMeters g t i ≤ (low + high) / 2 := by
          by_contra hcon
          push_neg at hcon
          exact hov ((oversat_iff (K := K) i hn hh hp hg _).mpr hcon)
        exact ih _ _ hlo hmid (by linarith)
    · rw [if_neg hcond]
      push_neg at hcond
      exact ⟨hhi, by linarith⟩

lemma oversat383 (d : ℚ) :
    is_oversaturated_at_depth 1 ⟨383/100, 0⟩ 0 d =
      if d < 595801/200000 then true else false := by
  have hrb : resultBar (K := ℚ) 1 ⟨383/100, 0⟩ 0 = 2595801/2000000 := by
    norm_num [resultBar, ceilingDenominator, bWeighted, aWeighted, N2_A, N2_B, HE_A, HE_B]
  simp only [is_oversaturated_at_depth, hrb]
  norm_num [ceilingDenominator, bWeighted, N2_B, HE_B]
  constructor <;> intro h <;> linarith

/-- Claim C4 counterexample: at tissue `{load_n2: 3.83, load_he: 0}`,
compartment 0, gradient factor 1, the analytical rounded ceiling is 3 but
the bisection solver returns 6: the unrounded analytical ceiling is
`2.979005` m while the bisection stops at the grid point `3.02734375` m,
and the `+2.999` rounding carries the two values to different multiples of
3.  The claimed exact equality `binary_ceiling(p,t,i,true) ==
ceiling(p,t,i,true)` fails (the unrounded results still differ by < 1 m). -/
theorem C4_counterexample_rounded_disagreement :
    ceiling_with_gf (1 : ℚ) ⟨3.83, 0⟩ 0 true = 3 ∧
    binary_ceiling_with_gf (1 : ℚ) ⟨3.83, 0⟩ 0 true = 6 ∧
    ¬ (binary_ceiling_with_gf (1 : ℚ) ⟨3.83, 0⟩ 0 true =
        ceiling_with_gf (1 : ℚ) ⟨3.83, 0⟩ 0 true) := by
  have h1 : ceiling_with_gf (1 : ℚ) ⟨3.83, 0⟩ 0 true = 3 := by
    have h : ⌊(1195601/600000 : ℚ)⌋₊ = 1 := floorNat_eq 1 (by norm_num) (by norm_num)
    norm_num [ceiling_with_gf, roundCeil, resultMeters, resultBar, ceilingDenominator,
      bWeighted, aWeighted, N2_A, N2_B, HE_A, HE_B, h]
  have h2 : binary_ceiling_with_gf (1 : ℚ) ⟨3.83, 0⟩ 0 true = 6 := by
    have h : ⌊(64281/32000 : ℚ)⌋₊ = 2 := floorNat_eq 2 (by norm_num) (by norm_num)
    norm_num [binary_ceiling_with_gf, doublingLoop, bisectLoop, oversat383, roundCeil, h]
  refine ⟨h1, h2, ?_⟩
  rw [h1, h2]
  norm_num

/-- Claim C4 as amended: rounded equality does not hold in general, but the
two solvers agree closely.  For a positive gradient factor, physically
admissible loads, and an unrounded analytical ceiling in (0, 100] (so the
doubling phase never fires), the bisection result is within its 0.1 m
precision above the analytical value, hence: unrounded, `binary` is between
`ceiling` and `ceiling + 1`; rounded, between `ceiling` and `ceiling + 3`. -/
theorem C4_amended_solver_agreement :
    ∀ (gf : ℚ) (t : Tissue ℚ) (i : Fin 16),
      0 < gf → 0 ≤ t.load_n2 → 0 ≤ t.load_he → 0 < t.load_n2 + t.load_he →
      0 < resultMeters gf t i → resultMeters gf t i ≤ 100 →
      ceiling_with_gf gf t i false ≤ binary_ceiling_with_gf gf t i false ∧
      binary_ceiling_with_gf gf t i false ≤ ceiling_with_gf gf t i false + 1 ∧
      ceiling_with_gf gf t i true ≤ binary_ceiling_with_gf gf t i true ∧
      binary_ceiling_with_gf gf t i true ≤ ceiling_with_gf gf t i true + 3 := by
  intro gf t i hg hn hh hp hr0 hr100
  have hguard := denominator_guard_passes (K := ℚ) i hn hh hp hg
  have hcf : ceiling_with_gf gf t i false = ⌊resultMeters gf t i⌋₊ := by
    simp only [ceiling_with_gf, if_neg (not_le.mpr hp), if_neg hguard,
      if_neg (not_lt.mpr hr0.le), Bool.false_eq_true, if_false]
  have hct : ceiling_with_gf gf t i true = roundCeil (resultMeters gf t i) := by
    simp only [ceiling_with_gf, if_neg (not_le.mpr hp), if_neg hguard,
      if_neg (not_lt.mpr hr0.le), if_true]
  have hov0 : is_oversaturated_at_depth gf t i 0 = true :=
    (oversat_iff (K := ℚ) i hn hh hp hg 0).mpr hr0
  have hov100 : ¬ (is_oversaturated_at_depth gf t i 100 = true) := by
    intro hcon
    have := (oversat_iff (K := ℚ) i hn hh hp hg 100).mp hcon
    linarith
  have hdl : doublingLoop gf t i 50 100 = 100 := by
    rw [show (50:ℕ) = 49 + 1 from rfl, doublingLoop, if_neg hov100]
  obtain ⟨hbl, hbh⟩ := bisectLoop_bounds (K := ℚ) i hn hh hp hg 50 0 100 hr0 hr100 (by norm_num)
  have hvpos : ¬ (bisectLoop gf t i 50 0 100 < 0) := not_lt.mpr (le_trans hr0.le hbl)
  have hbf : binary_ceiling_with_gf gf t i false = ⌊bisectLoop gf t i 50 0 100⌋₊ := by
    simp only [binary_ceiling_with_gf, if_neg (not_le.mpr hp), hov0, not_true_eq_false,
      Bool.false_eq_true, if_false, hdl, if_neg hvpos]
  have hbt : binary_ceiling_with_gf gf t i true = roundCeil (bisectLoop gf t i 50 0 100) := by
    simp only [binary_ceiling_with_gf, if_neg (not_le.mpr hp), hov0, not_true_eq_false,
      Bool.false_eq_true, if_false, hdl, if_neg hvpos, if_true]
  set r := resultMeters gf t i with hrdef
  set v := bisectLoop gf t i 50 0 100 with hvdef
  have hv0 : (0:ℚ) ≤ v := le_trans hr0.le hbl
  have hfv : ((⌊v⌋₊ : ℚ)) ≤ v := Nat.floor_le hv0
  have hfr2 : r < ⌊r⌋₊ + 1 := Nat.lt_floor_add_one r
  have hfvr : ⌊r⌋₊ ≤ ⌊v⌋₊ := Nat.floor_le_floor hbl
  have hfvu : ⌊v⌋₊ ≤ ⌊r⌋₊ + 1 := by
    by_contra hcon
    push_neg at hcon
    have h4 : ⌊r⌋₊ + 2 ≤ ⌊v⌋₊ := hcon
    have hq : ((⌊r⌋₊ + 2 : ℕ) : ℚ) ≤ ((⌊v⌋₊ : ℕ) : ℚ) := by exact_mod_cast h4
    push_cast at hq
    linarith
  have hm1 : ((⌊(v + 2.999) / 3⌋₊ : ℚ)) ≤ (v + 2.999) / 3 := Nat.floor_le (by positivity)
  have hm2 : (r + 2.999) / 3 < ⌊(r + 2.999) / 3⌋₊ + 1 := Nat.lt_floor_add_one _
  have hrc1 : ⌊(r + 2.999) / 3⌋₊ ≤ ⌊(v + 2.999) / 3⌋₊ :=
    Nat.floor_le_floor (by linarith)
  have hrc2 : ⌊(v + 2.999) / 3⌋₊ ≤ ⌊(r + 2.999) / 3⌋₊ + 1 := by
    by_contra hcon
    push_neg at hcon
    have h4 : ⌊(r + 2.999) / 3⌋₊ + 2 ≤ ⌊(v + 2.999) / 3⌋₊ := hcon
    have hq : ((⌊(r + 2.999) / 3⌋₊ + 2 : ℕ) : ℚ) ≤ ((⌊(v + 2.999) / 3⌋₊ : ℕ) : ℚ) := by
      exact_mod_cast h4
    push_cast at hq
    linarith
  refine ⟨?_, ?_, ?_, ?_⟩
  · rw [hcf, hbf]
    exact hfvr
  · rw [hcf, hbf]
    exact hfvu
  · rw [hct, hbt, roundCeil, roundCeil]
    exact Nat.mul_le_mul_right 3 hrc1
  · rw [hct, hbt, roundCeil, roundCeil]
    omega

/-- Witness for the amended claim C4 at gradient factor 1 and the tissue
pinned by the repository's ceiling tests (unrounded analytical ceiling
`3.744554` m). -/
theorem C4_amended_solver_agreement_witness :
    ((0:ℚ) < 1 ∧ (0:ℚ) ≤ (⟨3.11, 0⟩ : Tissue ℚ).load_n2 ∧
      (0:ℚ) ≤ (⟨3.11, 0⟩ : Tissue ℚ).load_he ∧
      0 < (⟨3.11, 0⟩ : Tissue ℚ).load_n2 + (⟨3.11, 0⟩ : Tissue ℚ).load_he ∧
      0 < resultMeters (1:ℚ) ⟨3.11, 0⟩ 1 ∧ resultMeters (1:ℚ) ⟨3.11, 0⟩ 1 ≤ 100) ∧
    (ceiling_with_gf (1:ℚ) ⟨3.11, 0⟩ 1 false ≤ binary_ceiling_with_gf (1:ℚ) ⟨3.11, 0⟩ 1 false ∧
      binary_ceiling_with_gf (1:ℚ) ⟨3.11, 0⟩ 1 false ≤
        ceiling_with_gf (1:ℚ) ⟨3.11, 0⟩ 1 false + 1 ∧
      ceiling_with_gf (1:ℚ) ⟨3.11, 0⟩ 1 true ≤ binary_ceiling_with_gf (1:ℚ) ⟨3.11, 0⟩ 1 true ∧
      binary_ceiling_with_gf (1:ℚ) ⟨3.11, 0⟩ 1 true ≤
        ceiling_with_gf (1:ℚ) ⟨3.11, 0⟩ 1 true + 3) :=
  ⟨⟨by norm_num, by norm_num, by norm_num, by norm_num,
      by norm_num [resultMeters, resultBar, ceilingDenominator, bWeighted, aWeighted,
        N2_A, N2_B, HE_A, HE_B],
      by norm_num [resultMeters, resultBar, ceilingDenominator, bWeighted, aWeighted,
        N2_A, N2_B, HE_A, HE_B]⟩,
    C4_amended_solver_agreement 1 ⟨3.11, 0⟩ 1 (by norm_num) (by norm_num) (by norm_num)
      (by norm_num)
      (by norm_num [resultMeters, resultBar, ceilingDenominator, bWeighted, aWeighted,
        N2_A, N2_B, HE_A, HE_B])
      (by norm_num [resultMeters, resultBar, ceilingDenominator, bWeighted, aWeighted,
        N2_A, N2_B, HE_A, HE_B])⟩

end DiveDeco
